import Mathlib

/-!
Verification of the supercity-scripts configuration validators.

The repository contains six near-duplicate Python scripts (shop-offers,
end-news-double-points, quests-weekly, main-reward-lines, rfm-offers,
lottery-rewards).  Each loads a tabular requirements file and several JSON
documents, builds keyed indices, runs field-by-field checks and accumulates
pass/fail/warning counters.  This file shallowly embeds the parts of those
scripts that the stated properties are about and proves or refutes each
property.

Modelling conventions, used throughout:
* Python dicts are insertion-ordered association lists; `dictSet` is dict
  assignment (overwrite in place), `mapAdd` is the
  `if k not in d: d[k] = []; d[k].append(v)` pattern.
* JSON documents are modelled at the schema each script reads; a field the
  document lacks is `Option.none`, which is observationally equivalent to the
  `dict.get(key, default)` reads the scripts perform.  The empty dict `{}`
  returned by a failed load is the all-`none` record.
* `info_logs` entries are structured (`LogEntry`); timestamps, ANSI colours,
  numbering and quote characters inside message text are presentation only
  and elided.
* Python floats are modelled as rationals; machine integers are unbounded in
  Python, so `Int`/`Nat` are exact.
* Code that can raise is modelled with `Except String`; a total Lean function
  models code that cannot raise.
-/

/-- Scalar payload values as passed to the logging functions: Python strings and ints. -/
inductive PyExp where
  | s (v : String)
  | i (n : Int)
deriving DecidableEq, Repr

/-- Python str() of a scalar payload. -/
def PyExp.pyStr : PyExp → String
  | .s v => v
  | .i n => toString n

/-- Summary counters kept in the stats dictionary of every validator. -/
structure Stats where
  total_checks : Nat
  passed_checks : Nat
  failed_checks : Nat
  warning_checks : Nat
deriving DecidableEq, Repr

/-- Counters of a freshly constructed validator. -/
def Stats.init : Stats := ⟨0, 0, 0, 0⟩

/-- One entry of a per-subject error map (the dicts appended by log_check,
log_warning and log_error).  A key a given validator leaves out of its Python
dict is modelled as `none`, observationally equivalent under the `dict.get`
reads performed by the CSV reporters. -/
structure ErrorDetail where
  check : String
  expected : Option PyExp
  actual : Option PyExp
  details : Option String
  tag : Option String
deriving DecidableEq, Repr

/-- Structured rendering of an info_logs entry. -/
inductive LogEntry where
  | header (text : String)
  | info (msg : String)
  | checkOk (subject : String) (checkName : String)
  | checkFail (subject : String) (checkName : String)
  | warn (msg : String)
  | err (msg : String)
  | summary (total passed failed warnings : Nat) (pct : ℚ)
deriving DecidableEq, Repr

/-- Mutable state shared by all six validators: the summary counters, the flat
error and warning lists, the info log and the per-subject error map
(offer_errors / config_errors / quest_errors / action_errors), keyed by the
subject type the particular script uses. -/
structure VState (σ : Type) where
  stats : Stats
  errors : List String
  warnings : List String
  info_logs : List LogEntry
  subject_errors : List (σ × List ErrorDetail)
deriving DecidableEq, Repr

/-- State of a freshly constructed validator before any logging call. -/
def VState.empty {σ : Type} : VState σ := ⟨Stats.init, [], [], [], []⟩

/-- Python pattern `if k not in d: d[k] = []` followed by `d[k].append(v)`. -/
def mapAdd {σ α : Type} [DecidableEq σ] (k : σ) (v : α) :
    List (σ × List α) → List (σ × List α)
  | [] => [(k, [v])]
  | (k0, vs) :: rest =>
      if k = k0 then (k0, vs ++ [v]) :: rest else (k0, vs) :: mapAdd k v rest

/-- Read of an insertion-ordered association list (Python `d.get(k)`). -/
def mapGet? {σ α : Type} [DecidableEq σ] (k : σ) : List (σ × α) → Option α
  | [] => none
  | (k0, v) :: rest => if k = k0 then some v else mapGet? k rest

/-- Python dict assignment `d[k] = v`: overwrite in place, else append. -/
def dictSet {σ α : Type} [DecidableEq σ] (k : σ) (v : α) :
    List (σ × α) → List (σ × α)
  | [] => [(k, v)]
  | (k0, v0) :: rest =>
      if k = k0 then (k0, v) :: rest else (k0, v0) :: dictSet k v rest

/-- Value of a nonempty ASCII digit run. -/
def digitsToNat (cs : List Char) : Nat :=
  cs.foldl (fun acc c => acc * 10 + (c.toNat - 48)) 0

/-- Strip leading and trailing whitespace from a character list (Python str.strip). -/
def trimChars (cs : List Char) : List Char :=
  ((cs.dropWhile Char.isWhitespace).reverse.dropWhile Char.isWhitespace).reverse

/-- Inner loop of Python `int(str)` after whitespace stripping: optional sign then
a nonempty digit run; anything else raises ValueError (modelled as `none`). -/
def parsePyIntChars : List Char → Option Int
  | [] => none
  | '-' :: rest =>
      if !rest.isEmpty && rest.all Char.isDigit then
        some (-(Int.ofNat (digitsToNat rest)))
      else none
  | '+' :: rest =>
      if !rest.isEmpty && rest.all Char.isDigit then some (Int.ofNat (digitsToNat rest))
      else none
  | cs =>
      if cs.all Char.isDigit then some (Int.ofNat (digitsToNat cs)) else none

/-- Python `int(s)` for a string; `none` models ValueError.  (Underscore digit
grouping and non-ASCII digits are not modelled.) -/
def parsePyInt (s : String) : Option Int := parsePyIntChars (trimChars s.toList)

/-- Python `s.isdigit()` restricted to ASCII digits. -/
def pyIsDigit (s : String) : Bool := !s.toList.isEmpty && s.toList.all Char.isDigit

/-- A CSV row as produced by csv.DictReader: column name to string value, in
column order. -/
abbrev Row := List (String × String)

/-- Python `row.get(k, default)`. -/
def rowGetD (row : Row) (k default : String) : String := (mapGet? k row).getD default

/-- Python `k in row`. -/
def rowHas (row : Row) (k : String) : Bool := (mapGet? k row).isSome

namespace ShopOffers

/-- State of ShopOffersValidator; subjects are the integer Action ids. -/
abbrev State := VState Int

/-- ShopOffersValidator.log_check (src/shop-offers/script.py, lines 169 to 214):
bump total_checks, then on success bump passed_checks and log, on failure bump
failed_checks, append the error detail to offer_errors under the action id and
record the flat error message. -/
def log_check (st : State) (action_id : Int) (check_name : String) (result : Bool)
    (expected actual : Option PyExp) (details : Option String)
    (check_tag : Option String) : State :=
  let st := { st with stats := { st.stats with total_checks := st.stats.total_checks + 1 } }
  if result then
    { st with
      stats := { st.stats with passed_checks := st.stats.passed_checks + 1 },
      info_logs := st.info_logs ++ [LogEntry.checkOk (toString action_id) check_name] }
  else
    let ed : ErrorDetail := ⟨check_name, expected, actual, details, check_tag⟩
    { st with
      stats := { st.stats with failed_checks := st.stats.failed_checks + 1 },
      subject_errors := mapAdd action_id ed st.subject_errors,
      errors := st.errors ++ ["Action " ++ toString action_id ++ ": " ++ check_name],
      info_logs := st.info_logs ++ [LogEntry.checkFail (toString action_id) check_name] }

/-- ShopOffersValidator.log_warning (lines 216 to 244): bump warning_checks; when
an action id is supplied also append a WARNING entry to offer_errors under it. -/
def log_warning (st : State) (message : String) (action_id : Option Int) : State :=
  let st := { st with stats := { st.stats with warning_checks := st.stats.warning_checks + 1 } }
  match action_id with
  | some a =>
      let ed : ErrorDetail := ⟨"warning", none, none, some message, some "WARNING"⟩
      { st with
        subject_errors := mapAdd a ed st.subject_errors,
        info_logs := st.info_logs ++ [LogEntry.warn message],
        warnings := st.warnings ++ [message] }
  | none =>
      { st with
        info_logs := st.info_logs ++ [LogEntry.warn message],
        warnings := st.warnings ++ [message] }

/-- ShopOffersValidator.log_error (lines 246 to 273): counters untouched; when an
action id is supplied also append an ERROR entry to offer_errors under it. -/
def log_error (st : State) (message : String) (action_id : Option Int) : State :=
  match action_id with
  | some a =>
      let ed : ErrorDetail := ⟨"error", none, none, some message, some "ERROR"⟩
      { st with
        subject_errors := mapAdd a ed st.subject_errors,
        info_logs := st.info_logs ++ [LogEntry.err message],
        errors := st.errors ++ [message] }
  | none =>
      { st with
        info_logs := st.info_logs ++ [LogEntry.err message],
        errors := st.errors ++ [message] }

/-- One logging call as issued by the validation phases. -/
inductive Call where
  | check (action_id : Int) (check_name : String) (result : Bool)
      (expected actual : Option PyExp) (details : Option String)
      (check_tag : Option String)
  | warning (message : String) (action_id : Option Int)
  | error (message : String) (action_id : Option Int)

/-- Dispatch one logging call. -/
def applyCall (st : State) : Call → State
  | .check a n r e ac d t => log_check st a n r e ac d t
  | .warning m a => log_warning st m a
  | .error m a => log_error st m a

/-- A validator run, as far as the ledger is concerned: the sequence of logging
calls the phases issue, applied to the fresh state. -/
def runCalls (calls : List Call) : State := calls.foldl applyCall VState.empty

end ShopOffers

/-- The counter relation maintained by every logging function. -/
def statsInv (s : Stats) : Prop := s.total_checks = s.passed_checks + s.failed_checks

theorem ShopOffers.applyCall_inv (st : ShopOffers.State) (c : ShopOffers.Call)
    (h : statsInv st.stats) : statsInv (ShopOffers.applyCall st c).stats := by
  cases c with
  | check a n r e ac d t =>
      cases r <;> simp [ShopOffers.applyCall, ShopOffers.log_check, statsInv] at * <;> omega
  | warning m a =>
      cases a <;> simp [ShopOffers.applyCall, ShopOffers.log_warning, statsInv] at * <;> omega
  | error m a =>
      cases a <;> simp [ShopOffers.applyCall, ShopOffers.log_error, statsInv] at * <;> omega

theorem ShopOffers.foldl_inv :
    ∀ (calls : List ShopOffers.Call) (st : ShopOffers.State),
      statsInv st.stats → statsInv (calls.foldl ShopOffers.applyCall st).stats
  | [], _, h => h
  | c :: rest, st, h =>
      ShopOffers.foldl_inv rest (ShopOffers.applyCall st c) (ShopOffers.applyCall_inv st c h)

/-- C1: over every sequence of recorded check results and warnings in a validator
run, total_checks = passed_checks + failed_checks; each log_check call adds one to
total_checks and to exactly one of passed_checks / failed_checks, and log_warning
adds one only to warning_checks, never subtracting from the total. -/
theorem shopOffers_counter_invariant :
    (∀ calls : List ShopOffers.Call,
        (ShopOffers.runCalls calls).stats.total_checks
          = (ShopOffers.runCalls calls).stats.passed_checks
            + (ShopOffers.runCalls calls).stats.failed_checks)
    ∧ (∀ (st : ShopOffers.State) (a : Int) (n : String) (e ac : Option PyExp)
          (d t : Option String),
        (ShopOffers.log_check st a n true e ac d t).stats
          = { st.stats with
                total_checks := st.stats.total_checks + 1,
                passed_checks := st.stats.passed_checks + 1 }
        ∧ (ShopOffers.log_check st a n false e ac d t).stats
          = { st.stats with
                total_checks := st.stats.total_checks + 1,
                failed_checks := st.stats.failed_checks + 1 })
    ∧ (∀ (st : ShopOffers.State) (m : String) (a : Option Int),
        (ShopOffers.log_warning st m a).stats
          = { st.stats with warning_checks := st.stats.warning_checks + 1 }) := by
  refine ⟨fun calls => ShopOffers.foldl_inv calls VState.empty rfl, ?_, ?_⟩
  · intro st a n e ac d t
    constructor <;> simp [ShopOffers.log_check]
  · intro st m a
    cases a <;> simp [ShopOffers.log_warning]

/-- Python `pat in s` substring test, on character lists. -/
def subContains (pat : List Char) : List Char → Bool
  | [] => pat.isEmpty
  | c :: rest => pat.isPrefixOf (c :: rest) || subContains pat rest

/-- Python `pat in s` substring test for strings. -/
def strContains (s pat : String) : Bool := subContains pat.toList s.toList

/-- Python float division, which raises ZeroDivisionError on a zero denominator. -/
def pyDivQ (a b : ℚ) : Except String ℚ :=
  if b = 0 then Except.error "ZeroDivisionError" else Except.ok (a / b)

namespace Lottery

/-- State of LotteryRewardsValidator; config_errors is keyed by the check_id
argument, which defaults to None (a legal Python dict key). -/
abbrev State := VState (Option String)

/-- LotteryRewardsValidator.log_check (src/lottery-rewards/script.py, lines 150
to 203).  The failure branch appends to config_errors under check_id even when
check_id is None. -/
def log_check (st : State) (check_name : String) (result : Bool)
    (expected actual : Option PyExp) (details : Option String)
    (check_id : Option String) : State :=
  let st := { st with stats := { st.stats with total_checks := st.stats.total_checks + 1 } }
  if result then
    { st with
      stats := { st.stats with passed_checks := st.stats.passed_checks + 1 },
      info_logs := st.info_logs ++ [LogEntry.checkOk "" check_name] }
  else
    let ed : ErrorDetail := ⟨check_name, expected, actual, details, none⟩
    { st with
      stats := { st.stats with failed_checks := st.stats.failed_checks + 1 },
      subject_errors := mapAdd check_id ed st.subject_errors,
      errors := st.errors ++ [check_name],
      info_logs := st.info_logs ++ [LogEntry.checkFail "" check_name] }

/-- LotteryRewardsValidator.log_warning (lines 205 to 219). -/
def log_warning (st : State) (message : String) (check_id : Option String) : State :=
  let st := { st with stats := { st.stats with warning_checks := st.stats.warning_checks + 1 } }
  let st := { st with
    warnings := st.warnings ++ [message],
    info_logs := st.info_logs ++ [LogEntry.warn message] }
  match check_id with
  | some c =>
      { st with subject_errors :=
          mapAdd (some c) ⟨"Предупреждение", none, none, some message, none⟩ st.subject_errors }
  | none => st

/-- LotteryRewardsValidator.log_info (lines 142 to 148). -/
def log_info (st : State) (message : String) : State :=
  { st with info_logs := st.info_logs ++ [LogEntry.info message] }

/-- LotteryRewardsValidator.log_error (lines 221 to 234): counters untouched. -/
def log_error (st : State) (message : String) (check_id : Option String) : State :=
  let st := { st with
    errors := st.errors ++ [message],
    info_logs := st.info_logs ++ [LogEntry.err message] }
  match check_id with
  | some c =>
      { st with subject_errors :=
          mapAdd (some c) ⟨"Ошибка", none, none, some message, none⟩ st.subject_errors }
  | none => st

/-- LotteryRewardsValidator._get_error_details (lines 479 to 487). -/
def get_error_details (e : ErrorDetail) : String :=
  if strContains e.check "Награда" then "Награда должна соответствовать требованиям"
  else if strContains e.check "Экшен" then "Экшен должен присутствовать в конфиге"
  else e.details.getD ""

/-- Rendering of an optional payload with `error.get(key, "")`. -/
def optStr (v : Option PyExp) : String := (v.map PyExp.pyStr).getD ""

/-- CSV body rows written by save_report_to_csv (lines 464 to 473). -/
def reportRows (st : State) : List (List String) :=
  st.subject_errors.flatMap (fun kv =>
    kv.2.map (fun e =>
      [kv.1.getD "", e.check, "Ошибка", optStr e.expected, optStr e.actual,
       get_error_details e]))

/-- LotteryRewardsValidator.save_report_to_csv (lines 457 to 477).  The write
itself is external I/O; writeOk says whether it raised.  On failure the except
branch only calls log_error (no counter changes); on success the rows are
written and log_info is called. -/
def save_report_to_csv (writeOk : Bool) (st : State) :
    State × Option (List (List String)) :=
  if writeOk then (log_info st "Отчет сохранен в validation_report.csv", some (reportRows st))
  else (log_error st "Ошибка при сохранении отчета" none, none)

/-- LotteryRewardsValidator.save_detailed_log (lines 489 to 498), same shape. -/
def save_detailed_log (writeOk : Bool) (st : State) :
    State × Option (List LogEntry) :=
  if writeOk then (log_info st "Детальный лог сохранен в validation_detailed.log", some st.info_logs)
  else (log_error st "Ошибка при сохранении лога" none, none)

/-- Exit status computed at the end of main (line 545):
sys.exit(1 if validator.stats["failed_checks"] > 0 else 0). -/
def mainExitCode (st : State) : Nat := if st.stats.failed_checks > 0 then 1 else 0

/-- LotteryRewardsValidator.print_summary percentage computation (lines 428 to
434): an early return when json_output, otherwise passed/total*100 and
failed/total*100 with no total > 0 guard. -/
def summary_percents (s : Stats) (json_output : Bool) :
    Except String (Option (ℚ × ℚ)) :=
  if json_output then .ok none
  else do
    let p ← pyDivQ (s.passed_checks : ℚ) (s.total_checks : ℚ)
    let f ← pyDivQ (s.failed_checks : ℚ) (s.total_checks : ℚ)
    .ok (some (p * 100, f * 100))

end Lottery

/-- ShopOffersValidator.print_summary success_rate (src/shop-offers/script.py,
line 685): the division is guarded by total_checks > 0, else 0 is reported. -/
def ShopOffers.success_rate (s : Stats) : Except String ℚ :=
  if s.total_checks > 0 then
    (pyDivQ (s.passed_checks : ℚ) (s.total_checks : ℚ)).map (· * 100)
  else .ok 0

/-- EndNewsDoublePointsValidator.print_summary pass_percent
(src/end-news-double-points/script.py, line 416), same guarded shape. -/
def EndNews.pass_percent (s : Stats) : Except String ℚ :=
  if s.total_checks > 0 then
    (pyDivQ (s.passed_checks : ℚ) (s.total_checks : ℚ)).map (· * 100)
  else .ok 0

/-- RfmOffersValidator.print_summary success_rate (src/rfm-offers/script.py,
line 623), same guarded shape. -/
def RfmOffers.success_rate (s : Stats) : Except String ℚ :=
  if s.total_checks > 0 then
    (pyDivQ (s.passed_checks : ℚ) (s.total_checks : ℚ)).map (· * 100)
  else .ok 0

/-- LotteryRewardsValidator.print_summary (lines 418 to 455) as called at the
end of validate_all: the header is appended to info_logs by print_header, and
unless json_output returns early the unguarded percentage divisions run; a
ZeroDivisionError propagates out.  The error and warning enumerations further
down use print only and change no state. -/
def Lottery.print_summary (st : Lottery.State) (json_output : Bool) :
    Except String Lottery.State :=
  let st := { st with info_logs := st.info_logs ++ [LogEntry.header "РЕЗУЛЬТАТЫ ПРОВЕРКИ"] }
  match Lottery.summary_percents st.stats json_output with
  | .error e => .error e
  | .ok _ => .ok st

/-- The tail of LotteryRewardsValidator main (lines 538 to 545) together with
the interpreter semantics for an uncaught exception: validate_all ends in
print_summary; if that raises, the process terminates with status 1 and the
report writes and sys.exit are never reached; otherwise the reports are
written and sys.exit(1 if failed_checks > 0 else 0) runs. -/
def Lottery.main_run_exit (st : Lottery.State) (json_output : Bool)
    (ok1 ok2 : Bool) : Nat :=
  match Lottery.print_summary st json_output with
  | .error _ => 1
  | .ok st1 =>
      let st2 := (Lottery.save_report_to_csv ok1 st1).1
      let st3 := (Lottery.save_detailed_log ok2 st2).1
      Lottery.mainExitCode st3

/-- C8 counterexample: a console-output run that recorded zero checks raises
ZeroDivisionError inside print_summary, so the process exits with status 1
although failed_checks = 0 — the exit status is not equivalent to
failed_checks > 0 over every run. -/
theorem lottery_exit_nonzero_without_failures :
    Lottery.main_run_exit VState.empty false true true = 1
    ∧ (VState.empty : Lottery.State).stats.failed_checks = 0 := by
  constructor
  · simp [Lottery.main_run_exit, Lottery.print_summary, Lottery.summary_percents,
          pyDivQ, VState.empty, Stats.init, Bind.bind, Except.bind]
  · rfl

/-- C8 (amended): for every run in which print_summary does not raise — that
is, json_output is on or at least one check was recorded — the exit status is
nonzero iff failed_checks > 0 at the end of validation, and a failing CSV or
log write only logs an error, leaving failed_checks and hence that exit status
unchanged; a console run with zero recorded checks instead dies in
print_summary and exits nonzero with failed_checks = 0. -/
theorem lottery_exit_status_behaviour :
    (∀ (st : Lottery.State) (j : Bool) (ok1 ok2 : Bool),
        j = true ∨ st.stats.total_checks ≠ 0 →
        (Lottery.main_run_exit st j ok1 ok2 ≠ 0 ↔ st.stats.failed_checks > 0))
    ∧ (∀ (st : Lottery.State) (ok1 ok2 : Bool),
        ((Lottery.save_detailed_log ok2 (Lottery.save_report_to_csv ok1 st).1).1).stats.failed_checks
          = st.stats.failed_checks)
    ∧ (∀ st : Lottery.State,
        ((Lottery.save_report_to_csv false st).1).errors
            = st.errors ++ ["Ошибка при сохранении отчета"]
        ∧ ((Lottery.save_report_to_csv false st).1).stats = st.stats
        ∧ ((Lottery.save_detailed_log false st).1).stats = st.stats) := by
  refine ⟨?_, ?_, ?_⟩
  · intro st j ok1 ok2 hj
    obtain ⟨v, hv⟩ : ∃ v, Lottery.summary_percents st.stats j = .ok v := by
      cases j with
      | true => exact ⟨none, by simp [Lottery.summary_percents]⟩
      | false =>
          rcases hj with hj | hj
          · exact absurd hj (by simp)
          · have h0 : ((st.stats.total_checks : ℚ)) ≠ 0 := by exact_mod_cast hj
            exact ⟨some ((st.stats.passed_checks : ℚ) / st.stats.total_checks * 100,
                         (st.stats.failed_checks : ℚ) / st.stats.total_checks * 100),
              by simp [Lottery.summary_percents, pyDivQ, h0, Bind.bind, Except.bind]⟩
    by_cases hf : st.stats.failed_checks > 0 <;>
      cases ok1 <;> cases ok2 <;>
        simp [Lottery.main_run_exit, Lottery.print_summary, hv,
              Lottery.save_report_to_csv, Lottery.save_detailed_log, Lottery.log_info,
              Lottery.log_error, Lottery.mainExitCode, hf]
  · intro st ok1 ok2
    cases ok1 <;> cases ok2 <;>
      simp [Lottery.save_report_to_csv, Lottery.save_detailed_log, Lottery.log_info,
            Lottery.log_error]
  · intro st
    refine ⟨?_, ?_, ?_⟩ <;>
      simp [Lottery.save_report_to_csv, Lottery.save_detailed_log, Lottery.log_error]

/-- C8 witness: the non-raising iff instantiated at a run with one recorded
(failed) check. -/
theorem lottery_exit_status_behaviour_witness :
    Lottery.main_run_exit ⟨⟨1, 0, 1, 0⟩, [], [], [], []⟩ false true true ≠ 0
      ↔ (⟨⟨1, 0, 1, 0⟩, [], [], [], []⟩ : Lottery.State).stats.failed_checks > 0 :=
  lottery_exit_status_behaviour.1 ⟨⟨1, 0, 1, 0⟩, [], [], [], []⟩ false true true
    (Or.inr (by decide))

/-- C10 counterexample: with zero recorded checks and console output enabled,
the lottery-rewards print_summary divides passed/total with no total > 0 guard
and raises ZeroDivisionError, so summary rendering is not raise-free in every
variant. -/
theorem lottery_summary_raises_on_zero_total :
    Lottery.summary_percents Stats.init false = Except.error "ZeroDivisionError" := by
  simp [Lottery.summary_percents, pyDivQ, Stats.init, Bind.bind, Except.bind]

/-- C10 (amended): the shop-offers, end-news-double-points and rfm-offers
summaries guard the pass-percentage division by total_checks > 0 and never
raise, reporting 0 when no checks ran; quests-weekly and main-reward-lines
print no percentage; lottery-rewards is unguarded and its summary raises
exactly when total_checks = 0 and json_output is off. -/
theorem summary_division_guards :
    (∀ s : Stats, ∃ q : ℚ, ShopOffers.success_rate s = .ok q
        ∧ (s.total_checks = 0 → q = 0))
    ∧ (∀ s : Stats, ∃ q : ℚ, EndNews.pass_percent s = .ok q)
    ∧ (∀ s : Stats, ∃ q : ℚ, RfmOffers.success_rate s = .ok q)
    ∧ (∀ (s : Stats) (j : Bool),
        (Lottery.summary_percents s j).isOk = false ↔ j = false ∧ s.total_checks = 0) := by
  have hdiv : ∀ s : Stats, s.total_checks > 0 →
      pyDivQ (s.passed_checks : ℚ) (s.total_checks : ℚ)
        = .ok ((s.passed_checks : ℚ) / (s.total_checks : ℚ)) := by
    intro s hs
    have : ((s.total_checks : ℚ)) ≠ 0 := by
      exact_mod_cast Nat.pos_iff_ne_zero.mp hs
    simp [pyDivQ, this]
  refine ⟨?_, ?_, ?_, ?_⟩
  · intro s
    by_cases hs : s.total_checks > 0
    · refine ⟨(s.passed_checks : ℚ) / (s.total_checks : ℚ) * 100, ?_, fun h => by omega⟩
      simp [ShopOffers.success_rate, hs, hdiv s hs, Except.map]
    · exact ⟨0, by simp [ShopOffers.success_rate, hs], fun _ => rfl⟩
  · intro s
    by_cases hs : s.total_checks > 0
    · exact ⟨(s.passed_checks : ℚ) / (s.total_checks : ℚ) * 100,
        by simp [EndNews.pass_percent, hs, hdiv s hs, Except.map]⟩
    · exact ⟨0, by simp [EndNews.pass_percent, hs]⟩
  · intro s
    by_cases hs : s.total_checks > 0
    · exact ⟨(s.passed_checks : ℚ) / (s.total_checks : ℚ) * 100,
        by simp [RfmOffers.success_rate, hs, hdiv s hs, Except.map]⟩
    · exact ⟨0, by simp [RfmOffers.success_rate, hs]⟩
  · intro s j
    cases j with
    | false =>
        by_cases hs : s.total_checks = 0
        · simp [Lottery.summary_percents, pyDivQ, hs, Bind.bind, Except.bind,
                Except.isOk, Except.toBool]
        · have h1 : ((s.total_checks : ℚ)) ≠ 0 := by exact_mod_cast hs
          simp [Lottery.summary_percents, pyDivQ, h1, Except.isOk, Except.toBool, hs,
                Bind.bind, Except.bind]
    | true => simp [Lottery.summary_percents, Except.isOk, Except.toBool]

/-- Guard of the shop-offers requirements loop: the row has an Action column
with a truthy (nonempty) value. -/
def ShopOffers.rowHasAction (req : Row) : Bool :=
  rowHas req "Action" && rowGetD req "Action" "" != ""

/-- Loop body accumulator pass of ShopOffersValidator.__init__, lines 77 to 84:
for each row with a truthy Action value, try int(...); on success assign into
requirements_by_action_id (dict assignment, last write wins); on ValueError
log a construction-time warning and continue. -/
def ShopOffers.build_requirements_go (acc : List (Int × Row) × List String) :
    List Row → List (Int × Row) × List String
  | [] => acc
  | req :: rest =>
      let acc :=
        if ShopOffers.rowHasAction req then
          match parsePyInt (rowGetD req "Action" "") with
          | some a => (dictSet a req acc.1, acc.2)
          | none =>
              (acc.1,
               acc.2 ++ ["Некорректный Action ID в требованиях: " ++ rowGetD req "Action" ""])
        else acc
      ShopOffers.build_requirements_go acc rest

/-- requirements_by_action_id and the warnings issued while building it. -/
def ShopOffers.build_requirements_by_action_id (rows : List Row) :
    List (Int × Row) × List String :=
  ShopOffers.build_requirements_go ([], []) rows

/-- Guard of the quests-weekly complexity loop: complexity present and truthy
and the week column present. -/
def Quests.rowActive (req : Row) : Bool :=
  rowHas req "complexity" && rowGetD req "complexity" "" != "" && rowHas req "Неделя"

/-- QuestsValidator.__init__, lines 73 to 79: group complexity ids by week.
The call int(req[complexity]) is not wrapped in try/except, so a non-numeric
value raises ValueError out of the constructor (modelled as Except.error). -/
def Quests.build_complexity_ids_go (acc : List (String × List Int)) :
    List Row → Except String (List (String × List Int))
  | [] => .ok acc
  | req :: rest =>
      if Quests.rowActive req then
        match parsePyInt (rowGetD req "complexity" "") with
        | some c =>
            Quests.build_complexity_ids_go (mapAdd (rowGetD req "Неделя" "") c acc) rest
        | none =>
            .error ("ValueError: invalid literal for int: " ++ rowGetD req "complexity" "")
      else Quests.build_complexity_ids_go acc rest

/-- complexity_ids index of the quests-weekly validator. -/
def Quests.build_complexity_ids (rows : List Row) :
    Except String (List (String × List Int)) :=
  Quests.build_complexity_ids_go [] rows

/-- Guard of the main-reward-lines free_actions comprehension. -/
def MainReward.rowHasFree (req : Row) : Bool :=
  rowHas req "action_free" && rowGetD req "action_free" "" != ""

/-- SeasonPassValidator.__init__, line 75: the dict comprehension
int(req[action_free]) : req over rows with a truthy action_free; the bare
int(...) raises ValueError on a non-numeric value. -/
def MainReward.build_free_actions_go (acc : List (Int × Row)) :
    List Row → Except String (List (Int × Row))
  | [] => .ok acc
  | req :: rest =>
      if MainReward.rowHasFree req then
        match parsePyInt (rowGetD req "action_free" "") with
        | some a => MainReward.build_free_actions_go (dictSet a req acc) rest
        | none =>
            .error ("ValueError: invalid literal for int: " ++ rowGetD req "action_free" "")
      else MainReward.build_free_actions_go acc rest

/-- free_actions index of the main-reward-lines validator. -/
def MainReward.build_free_actions (rows : List Row) : Except String (List (Int × Row)) :=
  MainReward.build_free_actions_go [] rows

theorem mem_dictSet {σ α : Type} [DecidableEq σ] {k : σ} {v : α} {p : σ × α} :
    ∀ {m : List (σ × α)}, p ∈ dictSet k v m → p = (k, v) ∨ p ∈ m := by
  intro m
  induction m with
  | nil => simp [dictSet]
  | cons hd tl ih =>
      simp only [dictSet]
      by_cases h : k = hd.1
      · simp [h]
        intro hmem
        rcases hmem with h1 | h2
        · exact Or.inl h1
        · exact Or.inr (Or.inr h2)
      · simp [h]
        intro hmem
        rcases hmem with h1 | h2
        · exact Or.inr (Or.inl h1)
        · rcases ih h2 with h3 | h4
          · exact Or.inl h3
          · exact Or.inr (Or.inr h4)

theorem ShopOffers.build_go_entries
    (Good : Int × Row → Prop)
    (hGood : ∀ (req : Row) (a : Int),
        parsePyInt (rowGetD req "Action" "") = some a → Good (a, req)) :
    ∀ (rows : List Row) (acc : List (Int × Row) × List String),
      (∀ p ∈ acc.1, Good p) → ∀ p ∈ (ShopOffers.build_requirements_go acc rows).1, Good p := by
  intro rows
  induction rows with
  | nil => intro acc hacc p hp; exact hacc p hp
  | cons req rest ih =>
      intro acc hacc p hp
      simp only [ShopOffers.build_requirements_go] at hp
      by_cases hact : ShopOffers.rowHasAction req = true
      · rcases hparse : parsePyInt (rowGetD req "Action" "") with _ | a
        · simp only [hact, hparse, if_pos] at hp
          exact ih _ (by simpa using hacc) p hp
        · simp only [hact, hparse, if_pos] at hp
          refine ih _ ?_ p hp
          intro q hq
          rcases mem_dictSet hq with h1 | h2
          · subst h1; exact hGood _ _ hparse
          · exact hacc q h2
      · simp only [if_neg hact] at hp
        exact ih _ hacc p hp

theorem ShopOffers.build_go_warn_mono :
    ∀ (rows : List Row) (acc : List (Int × Row) × List String) (w : String),
      w ∈ acc.2 → w ∈ (ShopOffers.build_requirements_go acc rows).2 := by
  intro rows
  induction rows with
  | nil => intro acc w hw; exact hw
  | cons req rest ih =>
      intro acc w hw
      simp only [ShopOffers.build_requirements_go]
      by_cases hact : ShopOffers.rowHasAction req = true
      · rcases hparse : parsePyInt (rowGetD req "Action" "") with _ | a
        · simp only [hact, hparse, if_pos]
          exact ih _ w (by simp [hw])
        · simp only [hact, hparse, if_pos]
          exact ih _ w hw
      · simp only [if_neg hact]
        exact ih _ w hw

theorem Quests.build_complexity_go_raises :
    ∀ (rows : List Row) (acc : List (String × List Int)),
      (∃ row ∈ rows, Quests.rowActive row = true
          ∧ parsePyInt (rowGetD row "complexity" "") = none) →
      ∃ msg, Quests.build_complexity_ids_go acc rows = .error msg := by
  intro rows
  induction rows with
  | nil => intro acc h; rcases h with ⟨row, hmem, _⟩; simp at hmem
  | cons req rest ih =>
      intro acc h
      rcases h with ⟨row, hmem, hact, hparse⟩
      simp only [Quests.build_complexity_ids_go]
      rcases List.mem_cons.mp hmem with heq | hrest
      · subst heq
        simp only [hact, if_pos, hparse]
        exact ⟨_, rfl⟩
      · by_cases hact0 : Quests.rowActive req = true
        · rcases hparse0 : parsePyInt (rowGetD req "complexity" "") with _ | c
          · simp only [hact0, if_pos, hparse0]
            exact ⟨_, rfl⟩
          · simp only [hact0, if_pos, hparse0]
            exact ih _ ⟨row, hrest, hact, hparse⟩
        · simp only [if_neg hact0]
          exact ih _ ⟨row, hrest, hact, hparse⟩

theorem MainReward.build_free_go_raises :
    ∀ (rows : List Row) (acc : List (Int × Row)),
      (∃ row ∈ rows, MainReward.rowHasFree row = true
          ∧ parsePyInt (rowGetD row "action_free" "") = none) →
      ∃ msg, MainReward.build_free_actions_go acc rows = .error msg := by
  intro rows
  induction rows with
  | nil => intro acc h; rcases h with ⟨row, hmem, _⟩; simp at hmem
  | cons req rest ih =>
      intro acc h
      rcases h with ⟨row, hmem, hact, hparse⟩
      simp only [MainReward.build_free_actions_go]
      rcases List.mem_cons.mp hmem with heq | hrest
      · subst heq
        simp only [hact, if_pos, hparse]
        exact ⟨_, rfl⟩
      · by_cases hact0 : MainReward.rowHasFree req = true
        · rcases hparse0 : parsePyInt (rowGetD req "action_free" "") with _ | a
          · simp only [hact0, if_pos, hparse0]
            exact ⟨_, rfl⟩
          · simp only [hact0, if_pos, hparse0]
            exact ih _ ⟨row, hrest, hact, hparse⟩
        · simp only [if_neg hact0]
          exact ih _ ⟨row, hrest, hact, hparse⟩

theorem ShopOffers.build_go_warn :
    ∀ (rows : List Row) (acc : List (Int × Row) × List String) (row : Row),
      row ∈ rows → ShopOffers.rowHasAction row = true →
      parsePyInt (rowGetD row "Action" "") = none →
      ("Некорректный Action ID в требованиях: " ++ rowGetD row "Action" "")
        ∈ (ShopOffers.build_requirements_go acc rows).2 := by
  intro rows
  induction rows with
  | nil => intro acc row hmem; simp at hmem
  | cons req rest ih =>
      intro acc row hmem hact hparse
      simp only [ShopOffers.build_requirements_go]
      rcases List.mem_cons.mp hmem with heq | hrest
      · subst heq
        simp only [hact, if_pos, hparse]
        exact ShopOffers.build_go_warn_mono rest _ _ (by simp)
      · by_cases hact0 : ShopOffers.rowHasAction req = true
        · rcases hparse0 : parsePyInt (rowGetD req "Action" "") with _ | a
          · simp only [hact0, hparse0, if_pos]
            exact ih _ row hrest hact hparse
          · simp only [hact0, hparse0, if_pos]
            exact ih _ row hrest hact hparse
        · simp only [if_neg hact0]
          exact ih _ row hrest hact hparse

/-- C3 counterexample: in the quests-weekly validator, a requirements row whose
complexity value is non-numeric makes index construction raise ValueError
(Except.error) instead of excluding the record with a warning, refuting the
claim that construction never raises in every one of the six validators. -/
theorem quests_index_construction_raises :
    Quests.build_complexity_ids [[("Неделя", "1"), ("complexity", "abc")]]
      = Except.error "ValueError: invalid literal for int: abc" := by
  rfl

/-- C3 (amended): in shop-offers, building requirements_by_action_id never
raises; every indexed entry carries a key parsed from its own Action value, and
every row with a truthy non-numeric Action value yields a construction-time
warning (rows with a missing or empty Action are silently skipped).  In
quests-weekly and main-reward-lines, by contrast, a truthy non-numeric id value
makes index construction raise ValueError. -/
theorem index_construction_behaviour :
    (∀ (rows : List Row) (a : Int) (req : Row),
        (a, req) ∈ (ShopOffers.build_requirements_by_action_id rows).1 →
        parsePyInt (rowGetD req "Action" "") = some a)
    ∧ (∀ (rows : List Row) (row : Row),
        row ∈ rows → ShopOffers.rowHasAction row = true →
        parsePyInt (rowGetD row "Action" "") = none →
        ("Некорректный Action ID в требованиях: " ++ rowGetD row "Action" "")
          ∈ (ShopOffers.build_requirements_by_action_id rows).2)
    ∧ (∀ (rows : List Row),
        (∃ row ∈ rows, Quests.rowActive row = true
            ∧ parsePyInt (rowGetD row "complexity" "") = none) →
        ∃ msg, Quests.build_complexity_ids rows = .error msg)
    ∧ (∀ (rows : List Row),
        (∃ row ∈ rows, MainReward.rowHasFree row = true
            ∧ parsePyInt (rowGetD row "action_free" "") = none) →
        ∃ msg, MainReward.build_free_actions rows = .error msg) := by
  refine ⟨?_, ?_, ?_, ?_⟩
  · intro rows a req hmem
    exact ShopOffers.build_go_entries
      (fun p => parsePyInt (rowGetD p.2 "Action" "") = some p.1)
      (fun _ _ h => h) rows ([], []) (by simp) (a, req) hmem
  · intro rows row hmem hact hparse
    exact ShopOffers.build_go_warn rows ([], []) row hmem hact hparse
  · intro rows h; exact Quests.build_complexity_go_raises rows [] h
  · intro rows h; exact MainReward.build_free_go_raises rows [] h

/-- Python `a or fallback` for strings: the fallback when a is empty. -/
def pyOr (a fallback : String) : String := if a == "" then fallback else a

/-- Python re.search of a parenthesized digit run: scan for an opening paren
followed by at least one digit followed by a closing paren; return the first
such digit run (the regex cannot backtrack into the greedy digit run). -/
def extractParen : List Char → Option String
  | [] => none
  | '(' :: rest =>
      let digits := rest.takeWhile Char.isDigit
      if !digits.isEmpty && (rest.drop digits.length).head? == some ')' then
        some (String.mk digits)
      else extractParen rest
  | _ :: rest => extractParen rest

/-- Whether an external load (open plus parse) succeeded, and with what value;
fail carries the exception text. -/
inductive LoadOutcome (α : Type) where
  | ok (v : α)
  | fail (exc : String)

namespace EndNews

/-- State of EndNewsDoublePointsValidator; config_errors is keyed by the
check_id strings of log_check. -/
abbrev State := VState String

/-- Scalar or list-of-ints JSON value, as handled by the
`",".join(map(str, items)) if isinstance(items, list) else str(items)` idiom. -/
inductive ItemsVal where
  | ints (l : List Int)
  | scalar (v : PyExp)
deriving DecidableEq, Repr

/-- The join-or-str rendering of such a value. -/
def ItemsVal.toStr : ItemsVal → String
  | .ints l => String.intercalate "," (l.map toString)
  | .scalar v => v.pyStr

/-- Python truthiness of such a value. -/
def ItemsVal.truthy : ItemsVal → Bool
  | .ints l => !l.isEmpty
  | .scalar (.s v) => v != ""
  | .scalar (.i n) => n != 0

/-- The actions block inside a filter condition. -/
structure ActionsCond where
  compare : Option String
  items : Option ItemsVal
deriving DecidableEq, Repr

/-- The conditions dict of a filter. -/
structure FilterConds where
  actions : Option ActionsCond
deriving DecidableEq, Repr

/-- One entry of the filters list of a promo document. -/
structure EFilter where
  ftype : Option String
  conditions : Option FilterConds
deriving DecidableEq, Repr

/-- The parameters block of the main promo document, at the keys this script
reads. -/
structure PromoParams where
  seasonPassActions : Option ItemsVal
  promotionAwardMultiplierTurnOn : Option String
  promotionAwardMultiplier : Option PyExp
  itemsToCashExchange : Option PyExp
deriving DecidableEq, Repr

/-- The parameters block of an empty dict. -/
def PromoParams.empty : PromoParams := ⟨none, none, none, none⟩

/-- A promo JSON document at the keys this script reads; the empty dict
returned by a failed load is the all-none record. -/
structure PromoDoc where
  fromD : Option String
  toD : Option String
  filters : Option (List EFilter)
  parameters : Option PromoParams
deriving DecidableEq, Repr

/-- The document a failed JSON load substitutes. -/
def PromoDoc.empty : PromoDoc := ⟨none, none, none, none⟩

/-- Chained f.get(conditions, {}).get(actions, {}) read. -/
def EFilter.actionsCond (f : EFilter) : ActionsCond :=
  (f.conditions.getD ⟨none⟩).actions.getD ⟨none, none⟩

/-- Chained read ending in .get(compare). -/
def EFilter.compareVal (f : EFilter) : Option String := f.actionsCond.compare

/-- Chained read ending in .get(items, []). -/
def EFilter.itemsVal (f : EFilter) : ItemsVal := f.actionsCond.items.getD (.ints [])

/-- EndNewsDoublePointsValidator.print_header (lines 103 to 114): the header is
appended to info_logs whether or not console output is on. -/
def print_header (st : State) (text : String) : State :=
  { st with info_logs := st.info_logs ++ [LogEntry.header text] }

/-- EndNewsDoublePointsValidator.log_info (lines 116 to 122). -/
def log_info (st : State) (message : String) : State :=
  { st with info_logs := st.info_logs ++ [LogEntry.info message] }

/-- EndNewsDoublePointsValidator.log_check (lines 124 to 166): same counter
discipline as shop-offers; failures append the detail dict (which has no tag
key) to config_errors under check_id and the message to the flat error list. -/
def log_check (st : State) (check_id : String) (check_name : String) (result : Bool)
    (expected actual : Option PyExp) (details : Option String) : State :=
  let st := { st with stats := { st.stats with total_checks := st.stats.total_checks + 1 } }
  if result then
    { st with
      stats := { st.stats with passed_checks := st.stats.passed_checks + 1 },
      info_logs := st.info_logs ++ [LogEntry.checkOk check_id check_name] }
  else
    let ed : ErrorDetail := ⟨check_name, expected, actual, details, none⟩
    { st with
      stats := { st.stats with failed_checks := st.stats.failed_checks + 1 },
      subject_errors := mapAdd check_id ed st.subject_errors,
      errors := st.errors ++ [check_name],
      info_logs := st.info_logs ++ [LogEntry.checkFail check_id check_name] }

/-- EndNewsDoublePointsValidator.log_warning (lines 168 to 177): bump
warning_checks and record the message; the check_id parameter is accepted but
never used, so nothing is added to the per-subject config_errors map. -/
def log_warning (st : State) (message : String) (check_id : Option String) : State :=
  let st := { st with stats := { st.stats with warning_checks := st.stats.warning_checks + 1 } }
  let _ := check_id
  { st with
    info_logs := st.info_logs ++ [LogEntry.warn message],
    warnings := st.warnings ++ [message] }

/-- EndNewsDoublePointsValidator.log_error (lines 179 to 187): counters
untouched; the check_id parameter is likewise unused. -/
def log_error (st : State) (message : String) (check_id : Option String) : State :=
  let _ := check_id
  { st with
    info_logs := st.info_logs ++ [LogEntry.err message],
    errors := st.errors ++ [message] }

/-- EndNewsDoublePointsValidator.start_phase (lines 189 to 192). -/
def start_phase (st : State) (phase_name : String) : State :=
  print_header st ("ФАЗА: " ++ phase_name)

/-- EndNewsDoublePointsValidator._load_json (lines 76 to 86): on a failed open
or parse, log a subject-less error and return the empty dict. -/
def load_json (st : State) (path : String) (outcome : LoadOutcome PromoDoc) :
    State × PromoDoc :=
  match outcome with
  | .ok v => (log_info st ("JSON-файл " ++ path ++ " успешно загружен"), v)
  | .fail exc =>
      (log_error st ("Ошибка при загрузке JSON-файла " ++ path ++ ": " ++ exc) none,
       PromoDoc.empty)

/-- EndNewsDoublePointsValidator._load_csv (lines 88 to 101): on a failed open
or parse, log a subject-less error and return the empty list. -/
def load_csv (st : State) (path : String) (outcome : LoadOutcome (List Row)) :
    State × List Row :=
  match outcome with
  | .ok v => (log_info st ("CSV-файл " ++ path ++ " успешно загружен"), v)
  | .fail exc =>
      (log_error st ("Ошибка при загрузке CSV-файла " ++ path ++ ": " ++ exc) none, [])

/-- requirements_by_alias construction (lines 69 to 72): index rows with a
truthy alias, dict assignment semantics. -/
def build_req_by_alias_go (acc : List (String × Row)) : List Row → List (String × Row)
  | [] => acc
  | req :: rest =>
      build_req_by_alias_go
        (if rowHas req "alias" && rowGetD req "alias" "" != "" then
           dictSet (rowGetD req "alias" "") req acc
         else acc) rest

/-- requirements_by_alias of the end-news validator. -/
def build_requirements_by_alias (rows : List Row) : List (String × Row) :=
  build_req_by_alias_go [] rows

/-- The four loaded documents plus the alias index. -/
structure Docs where
  end_news_promo : PromoDoc
  double_points_promo : PromoDoc
  promo : PromoDoc
  requirements_by_alias : List (String × Row)
deriving DecidableEq, Repr

/-- EndNewsDoublePointsValidator.__init__ (lines 11 to 74): header and file
logs, the four loads (each with its own outcome), then the alias index. -/
def init (p1 p2 p3 p4 : String) (o1 o2 o3 : LoadOutcome PromoDoc)
    (o4 : LoadOutcome (List Row)) : State × Docs :=
  let st := print_header VState.empty "ВАЛИДАЦИЯ ОКОН НАПОМИНАНИЙ И ДВОЙНЫХ ОЧКОВ"
  let st := log_info st "Файлы для проверки:"
  let st := log_info st ("- Промо окна завершения: " ++ p1)
  let st := log_info st ("- Промо двойных очков: " ++ p2)
  let st := log_info st ("- Основное промо: " ++ p3)
  let st := log_info st ("- Требования: " ++ p4)
  let r1 := load_json st p1 o1
  let r2 := load_json r1.1 p2 o2
  let r3 := load_json r2.1 p3 o3
  let r4 := load_csv r3.1 p4 o4
  (r4.1, ⟨r1.2, r2.2, r3.2, build_requirements_by_alias r4.2⟩)

/-- EndNewsDoublePointsValidator.validate_end_news (lines 207 to 294).  The
check of part 3 reads the req_not local that is only bound inside the
not-filter branch; when the not filter is absent and seasonPassActions is
truthy the source raises NameError, modelled as Except.error. -/
def validate_end_news (docs : Docs) (st : State) : Except String State :=
  match mapGet? "end news" docs.requirements_by_alias with
  | none => .ok (log_error st "Не найдены требования для end news в таблице" none)
  | some req =>
      let req_from := rowGetD req "from" ""
      let req_to := rowGetD req "to" ""
      let promo_from := docs.end_news_promo.fromD.getD ""
      let promo_to := docs.end_news_promo.toD.getD ""
      let st := log_check st "end_news_dates_from" "Дата начала показа окна завершения акции"
        (req_from == promo_from) (some (.s req_from)) (some (.s promo_from)) none
      let st := log_check st "end_news_dates_to" "Дата окончания показа окна завершения акции"
        (req_to == promo_to) (some (.s req_to)) (some (.s promo_to)) none
      let filters := docs.end_news_promo.filters.getD []
      let anyFilter := filters.find? (fun f =>
        f.ftype == some "ActionContain" && f.compareVal == some "any")
      let st :=
        match anyFilter with
        | some f =>
            let any_items_str := f.itemsVal.toStr
            let req_any := rowGetD req "any" ""
            log_check st "end_news_any_condition" "Условие показа any окна завершения акции"
              (req_any == any_items_str) (some (.s req_any)) (some (.s any_items_str)) none
        | none =>
            log_error st
              "Не найдено условие ActionContain с compare=any в фильтрах окна завершения акции" none
      let notFilter := filters.find? (fun f =>
        f.ftype == some "ActionContain" && f.compareVal == some "not")
      let stepNot :=
        match notFilter with
        | some f =>
            let not_items_str := f.itemsVal.toStr
            let req_not := rowGetD req "not" ""
            (log_check st "end_news_not_condition" "Условие показа not окна завершения акции"
               (req_not == not_items_str) (some (.s req_not)) (some (.s not_items_str)) none,
             some req_not)
        | none =>
            (log_error st
               "Не найдено условие ActionContain с compare=not в фильтрах окна завершения акции" none,
             none)
      let st := stepNot.1
      let season_pass :=
        ((docs.promo.parameters.getD PromoParams.empty).seasonPassActions).getD (.ints [])
      if season_pass.truthy then
        match stepNot.2 with
        | some req_not =>
            .ok (log_check st "end_news_season_pass_actions"
              "Соответствие значений not и seasonPassActions"
              (req_not == season_pass.toStr) (some (.s req_not)) (some (.s season_pass.toStr))
              (some "Значения not из требований должны соответствовать seasonPassActions в promo.json"))
        | none => .error "NameError: name req_not is not defined"
      else .ok (log_error st "Не найден параметр seasonPassActions в основном файле промо" none)

/-- EndNewsDoublePointsValidator.validate_double_points (lines 296 to 365). -/
def validate_double_points (docs : Docs) (st : State) : Except String State :=
  match mapGet? "double points(2)" docs.requirements_by_alias with
  | none => .ok (log_error st "Не найдены требования для double points(2) в таблице" none)
  | some req =>
      let req_from := rowGetD req "from" ""
      let req_to := rowGetD req "to" ""
      let promo_from := docs.double_points_promo.fromD.getD ""
      let promo_to := docs.double_points_promo.toD.getD ""
      let st := log_check st "double_points_dates_from" "Дата начала показа окна двойных очков"
        (req_from == promo_from) (some (.s req_from)) (some (.s promo_from)) none
      let st := log_check st "double_points_dates_to" "Дата окончания показа окна двойных очков"
        (req_to == promo_to) (some (.s req_to)) (some (.s promo_to)) none
      let req_multiplier_date := rowGetD req "MultiplierTurnOn" ""
      let promo_multiplier_date :=
        (docs.promo.parameters.getD PromoParams.empty).promotionAwardMultiplierTurnOn.getD ""
      let st :=
        if req_multiplier_date != "" then
          log_check st "double_points_multiplier_date" "Дата включения множителя"
            (req_multiplier_date == promo_multiplier_date)
            (some (.s req_multiplier_date))
            (some (.s (pyOr promo_multiplier_date "Не найдено в основном промо")))
            (some "Параметр promotionAwardMultiplierTurnOn в promo.json")
        else st
      let aliasVal := rowGetD req "alias" ""
      let multiplier_value := if aliasVal != "" then extractParen aliasVal.toList else none
      let promo_multiplier_value :=
        ((docs.promo.parameters.getD PromoParams.empty).promotionAwardMultiplier.getD (.s "")).pyStr
      match multiplier_value with
      | some v =>
          .ok (log_check st "double_points_multiplier_value" "Значение множителя очков"
            (v == promo_multiplier_value) (some (.s v))
            (some (.s (pyOr promo_multiplier_value "Не найдено в основном промо")))
            (some "Параметр promotionAwardMultiplier в promo.json"))
      | none =>
          .ok (log_warning st
            "Не удалось извлечь значение множителя из алиаса double points(2)" none)

/-- EndNewsDoublePointsValidator.validate_items_to_cash_exchange (lines 367 to
405). -/
def validate_items_to_cash_exchange (docs : Docs) (st : State) : Except String State :=
  let exchange_req :=
    match mapGet? "itemsToCashExchange(15)" docs.requirements_by_alias with
    | some r => some r
    | none =>
        (docs.requirements_by_alias.find? (fun kv =>
            kv.1 != "" && strContains kv.1 "itemsToCashExchange")).map (fun kv => kv.2)
  match exchange_req with
  | none => .ok (log_error st "Не найдены требования для itemsToCashExchange в таблице" none)
  | some req =>
      let aliasVal := rowGetD req "alias" ""
      let exchange_rate := if aliasVal != "" then extractParen aliasVal.toList else none
      let promo_exchange_rate :=
        ((docs.promo.parameters.getD PromoParams.empty).itemsToCashExchange.getD (.s "")).pyStr
      match exchange_rate with
      | some rate =>
          .ok (log_check st "items_to_cash_exchange_rate" "Курс обмена кэша на очки"
            (rate == promo_exchange_rate) (some (.s rate))
            (some (.s (pyOr promo_exchange_rate "Не найдено в основном промо")))
            (some "Параметр itemsToCashExchange в promo.json"))
      | none =>
          .ok (log_warning st
            "Не удалось извлечь значение курса обмена из алиаса для itemsToCashExchange" none)

/-- EndNewsDoublePointsValidator.print_summary (lines 407 to 433): header, the
guarded pass percentage, the summary log entry, then the error and warning
enumerations. -/
def print_summary (st : State) : Except String State :=
  let st := print_header st "РЕЗУЛЬТАТЫ ПРОВЕРОК"
  match EndNews.pass_percent st.stats with
  | .error e => .error e
  | .ok pct =>
      let st := { st with info_logs := st.info_logs ++
        [LogEntry.summary st.stats.total_checks st.stats.passed_checks
           st.stats.failed_checks st.stats.warning_checks pct] }
      let st :=
        if !st.errors.isEmpty then
          { st with info_logs := st.info_logs ++ [LogEntry.info "ОШИБКИ"]
              ++ st.errors.map LogEntry.info }
        else st
      let st :=
        if !st.warnings.isEmpty then
          { st with info_logs := st.info_logs ++ [LogEntry.info "ПРЕДУПРЕЖДЕНИЯ"]
              ++ st.warnings.map LogEntry.info }
        else st
      .ok st

/-- EndNewsDoublePointsValidator.validate_all (lines 194 to 205): the fixed
phase sequence; a phase only fails to run if an earlier phase raised. -/
def validate_all (docs : Docs) (st : State) : Except String State := do
  let st := start_phase st "ПРОВЕРКА ОКНА НАПОМИНАНИЯ О ЗАВЕРШЕНИИ АКЦИИ"
  let st ← validate_end_news docs st
  let st := start_phase st "ПРОВЕРКА ОКНА ДВОЙНЫХ ОЧКОВ"
  let st ← validate_double_points docs st
  let st := start_phase st "ПРОВЕРКА КУРСА ОБМЕНА КЭША НА ОЧКИ"
  let st ← validate_items_to_cash_exchange docs st
  print_summary st

end EndNews

/-- C3 witness: the amended statement instantiated at concrete rows — a numeric
Action row is indexed under its parsed id, a non-numeric one yields the
warning, and concrete bad rows make the quests-weekly and main-reward-lines
constructions raise. -/
theorem index_construction_behaviour_witness :
    parsePyInt (rowGetD [("Action", "7")] "Action" "") = some 7
    ∧ ("Некорректный Action ID в требованиях: " ++ rowGetD [("Action", "abc")] "Action" "")
        ∈ (ShopOffers.build_requirements_by_action_id [[("Action", "abc")]]).2
    ∧ (∃ msg, Quests.build_complexity_ids [[("Неделя", "2"), ("complexity", "x1")]]
        = Except.error msg)
    ∧ (∃ msg, MainReward.build_free_actions [[("action_free", "y")]] = Except.error msg) := by
  refine ⟨?_, ?_, ?_, ?_⟩
  · exact index_construction_behaviour.1 [[("Action", "7")]] 7 [("Action", "7")] (by decide)
  · exact index_construction_behaviour.2.1 [[("Action", "abc")]] [("Action", "abc")]
      (by decide) (by decide) (by decide)
  · exact index_construction_behaviour.2.2.1 _
      ⟨[("Неделя", "2"), ("complexity", "x1")], by decide, by decide, by decide⟩
  · exact index_construction_behaviour.2.2.2 _
      ⟨[("action_free", "y")], by decide, by decide, by decide⟩

/-- C2 (amended): when the open or parse of an input file raises, the end-news
loaders do not raise to the caller — they log a subject-less error (flat error
list only, per-subject map untouched) and return the empty record set ({} for
JSON, [] for CSV) — and a run whose four loads all failed still executes every
validation phase through to the final summary.  (Later phases do not survive
every failing load, however: see the counterexample where only the end-news
promo load fails.) -/
theorem endNews_load_failure_recovery :
    (∀ (st : EndNews.State) (path exc : String),
        (EndNews.load_json st path (.fail exc)).2 = EndNews.PromoDoc.empty
        ∧ (EndNews.load_json st path (.fail exc)).1.subject_errors = st.subject_errors
        ∧ (EndNews.load_json st path (.fail exc)).1.errors
            = st.errors ++ ["Ошибка при загрузке JSON-файла " ++ path ++ ": " ++ exc]
        ∧ (EndNews.load_json st path (.fail exc)).1.stats = st.stats)
    ∧ (∀ (st : EndNews.State) (path exc : String),
        (EndNews.load_csv st path (.fail exc)).2 = []
        ∧ (EndNews.load_csv st path (.fail exc)).1.subject_errors = st.subject_errors
        ∧ (EndNews.load_csv st path (.fail exc)).1.errors
            = st.errors ++ ["Ошибка при загрузке CSV-файла " ++ path ++ ": " ++ exc]
        ∧ (EndNews.load_csv st path (.fail exc)).1.stats = st.stats)
    ∧ (∀ p1 p2 p3 p4 e1 e2 e3 e4 : String,
        ∃ stf : EndNews.State,
          EndNews.validate_all
              (EndNews.init p1 p2 p3 p4 (.fail e1) (.fail e2) (.fail e3) (.fail e4)).2
              (EndNews.init p1 p2 p3 p4 (.fail e1) (.fail e2) (.fail e3) (.fail e4)).1
            = .ok stf
          ∧ LogEntry.header ("ФАЗА: " ++ "ПРОВЕРКА ОКНА НАПОМИНАНИЯ О ЗАВЕРШЕНИИ АКЦИИ")
              ∈ stf.info_logs
          ∧ LogEntry.header ("ФАЗА: " ++ "ПРОВЕРКА ОКНА ДВОЙНЫХ ОЧКОВ") ∈ stf.info_logs
          ∧ LogEntry.header ("ФАЗА: " ++ "ПРОВЕРКА КУРСА ОБМЕНА КЭША НА ОЧКИ") ∈ stf.info_logs
          ∧ LogEntry.header "РЕЗУЛЬТАТЫ ПРОВЕРОК" ∈ stf.info_logs) := by
  refine ⟨?_, ?_, ?_⟩
  · intro st path exc
    refine ⟨rfl, rfl, rfl, rfl⟩
  · intro st path exc
    refine ⟨rfl, rfl, rfl, rfl⟩
  · intro p1 p2 p3 p4 e1 e2 e3 e4
    refine ⟨_, rfl, ?_, ?_, ?_, ?_⟩ <;>
      simp [EndNews.init, EndNews.load_json, EndNews.load_csv, EndNews.log_error,
            EndNews.log_info, EndNews.print_header, EndNews.start_phase, VState.empty,
            EndNews.build_requirements_by_alias, EndNews.build_req_by_alias_go]

/-- C2 counterexample: with only the end-news promo load failing, the main
promo loaded with a truthy parameters.seasonPassActions and a requirements row
aliased end news, validate_end_news reaches the seasonPassActions comparison
with its req_not local unbound (the not filter was never found because the
failed load left filters empty) and raises out of validate_all — phases 2 and
3 and the summary never run, so a failing load does not leave every later
phase running. -/
theorem endNews_mixed_failure_aborts_phases :
    EndNews.validate_all
        (EndNews.init "end-news-promo.json" "double-points-promo.json" "promo.json"
          "requirements.csv" (.fail "No such file or directory")
          (.ok EndNews.PromoDoc.empty)
          (.ok ⟨none, none, none, some ⟨some (.ints [123]), none, none, none⟩⟩)
          (.ok [[("alias", "end news")]])).2
        (EndNews.init "end-news-promo.json" "double-points-promo.json" "promo.json"
          "requirements.csv" (.fail "No such file or directory")
          (.ok EndNews.PromoDoc.empty)
          (.ok ⟨none, none, none, some ⟨some (.ints [123]), none, none, none⟩⟩)
          (.ok [[("alias", "end news")]])).1
      = Except.error "NameError: name req_not is not defined" := by
  rfl

theorem mapGet_mapAdd {σ α : Type} [DecidableEq σ] (k : σ) (v : α) :
    ∀ m : List (σ × List α),
      mapGet? k (mapAdd k v m) = some (((mapGet? k m).getD []) ++ [v]) := by
  intro m
  induction m with
  | nil => simp [mapAdd, mapGet?]
  | cons hd tl ih =>
      obtain ⟨k0, vs⟩ := hd
      by_cases h : k = k0
      · simp [mapAdd, mapGet?, h]
      · simp [mapAdd, mapGet?, h, ih]

/-- C9 counterexample: in the end-news-double-points validator, a warning
logged with an explicit subject key is counted and recorded in the flat
warnings list but never appears in the per-subject config_errors map, because
log_warning ignores its check_id parameter. -/
theorem endNews_warning_absent_from_subject_map :
    (EndNews.log_warning VState.empty "Предупреждение по проверке"
        (some "end_news_dates_from")).subject_errors = []
    ∧ (EndNews.log_warning VState.empty "Предупреждение по проверке"
        (some "end_news_dates_from")).warnings = ["Предупреждение по проверке"]
    ∧ (EndNews.log_warning VState.empty "Предупреждение по проверке"
        (some "end_news_dates_from")).stats.warning_checks = 1 := by
  refine ⟨rfl, rfl, rfl⟩

/-- C9 (amended): every failing check result is appended, by construction, to
the per-subject error map under its subject key, in shop-offers,
end-news-double-points and lottery-rewards alike; warnings carrying a subject
are likewise appended in shop-offers and lottery-rewards, but in
end-news-double-points log_warning ignores its subject argument and the map is
left unchanged. -/
theorem subject_error_map_consistency :
    (∀ (st : ShopOffers.State) (a : Int) (n : String) (e ac : Option PyExp)
        (d t : Option String),
        mapGet? a (ShopOffers.log_check st a n false e ac d t).subject_errors
          = some (((mapGet? a st.subject_errors).getD []) ++ [⟨n, e, ac, d, t⟩]))
    ∧ (∀ (st : ShopOffers.State) (a : Int) (m : String),
        mapGet? a (ShopOffers.log_warning st m (some a)).subject_errors
          = some (((mapGet? a st.subject_errors).getD [])
              ++ [⟨"warning", none, none, some m, some "WARNING"⟩]))
    ∧ (∀ (st : EndNews.State) (cid : String) (n : String) (e ac : Option PyExp)
        (d : Option String),
        mapGet? cid (EndNews.log_check st cid n false e ac d).subject_errors
          = some (((mapGet? cid st.subject_errors).getD []) ++ [⟨n, e, ac, d, none⟩]))
    ∧ (∀ (st : EndNews.State) (m : String) (cid : Option String),
        (EndNews.log_warning st m cid).subject_errors = st.subject_errors)
    ∧ (∀ (st : Lottery.State) (cid : Option String) (n : String) (e ac : Option PyExp)
        (d : Option String),
        mapGet? cid (Lottery.log_check st n false e ac d cid).subject_errors
          = some (((mapGet? cid st.subject_errors).getD []) ++ [⟨n, e, ac, d, none⟩]))
    ∧ (∀ (st : Lottery.State) (c : String) (m : String),
        mapGet? (some c) (Lottery.log_warning st m (some c)).subject_errors
          = some (((mapGet? (some c) st.subject_errors).getD [])
              ++ [⟨"Предупреждение", none, none, some m, none⟩])) := by
  refine ⟨?_, ?_, ?_, ?_, ?_, ?_⟩
  · intro st a n e ac d t
    simp [ShopOffers.log_check, mapGet_mapAdd]
  · intro st a m
    simp [ShopOffers.log_warning, mapGet_mapAdd]
  · intro st cid n e ac d
    simp [EndNews.log_check, mapGet_mapAdd]
  · intro st m cid
    simp [EndNews.log_warning]
  · intro st cid n e ac d
    simp [Lottery.log_check, mapGet_mapAdd]
  · intro st c m
    simp [Lottery.log_warning, mapGet_mapAdd]

/-- Python single-character split (str.split with a one-character separator). -/
def splitOnCharL (sep : Char) : List Char → List (List Char)
  | [] => [[]]
  | c :: rest =>
      if c = sep then [] :: splitOnCharL sep rest
      else
        match splitOnCharL sep rest with
        | [] => [[c]]
        | h :: t => (c :: h) :: t

/-- Python s.startswith(pat). -/
def strStartsWith (s pat : String) : Bool := pat.toList.isPrefixOf s.toList

/-- Fuel-driven body of Python str.replace(pat, empty string): delete every
occurrence of pat, scanning left to right.  The fuel is the input length, which
suffices because every step consumes at least one character. -/
def pyReplaceDelGo : Nat → List Char → List Char → List Char
  | 0, _, cs => cs
  | _ + 1, _, [] => []
  | fuel + 1, pat, c :: rest =>
      if !pat.isEmpty && pat.isPrefixOf (c :: rest) then
        pyReplaceDelGo fuel pat ((c :: rest).drop pat.length)
      else c :: pyReplaceDelGo fuel pat rest

/-- Python cs.replace(pat, empty string) on character lists. -/
def pyReplaceDel (pat cs : List Char) : List Char := pyReplaceDelGo cs.length pat cs

/-- One log_check invocation emitted by a validation fragment, with the
arguments the source passes. -/
structure CheckCall where
  name : String
  result : Bool
  expected : Option PyExp
  actual : Option PyExp
  details : Option String
  tag : Option String
deriving DecidableEq, Repr

namespace RfmOffers

/-- One settingsByConditions entry of an RFM config, at the single conditions
key the segments check reads. -/
structure CondSetting where
  isNotInOneOfRFM30Segments : Option String
deriving DecidableEq, Repr

/-- Tokenization both sides of the segments check apply (lines 504 to 516):
split on the comma, strip each piece, keep the truthy (nonempty) ones. -/
def segTokens (s : String) : List String :=
  ((splitOnCharL ',' s.toList).map (fun cs => String.mk (trimChars cs))).filter
    (fun x => x != "")

/-- Python list.sort() on strings: ascending lexicographic order. -/
def segSort (l : List String) : List String := List.insertionSort (· ≤ ·) l

/-- The segments check of RfmOffersValidator.validate_rfm_files (lines 503 to
531): find the first settingsByConditions entry carrying the segments key,
tokenize and sort both sides, and pass iff the entry was found and the sorted
token lists are equal. -/
def segments_check_result (segmentField : String) (settings : List CondSetting) : Bool :=
  let expected := segSort (segTokens segmentField)
  match settings.find? (fun c => c.isNotInOneOfRFM30Segments.isSome) with
  | some c => expected == segSort (segTokens (c.isNotInOneOfRFM30Segments.getD ""))
  | none => false

/-- Positional translation of the anchored regex of
RfmOffersValidator._normalize_date_format (lines 348 to 360):
four digits, dash, two digits, dash, two digits, space, one digit, colon, two
digits, colon, two digits, as a prefix of the input.  On a match the result is
rebuilt from the groups with the hour zero-padded (any unmatched suffix is
dropped, exactly as the source rebuilds only the groups); otherwise the input
is returned unchanged. -/
def normList : List Char → List Char
  | y1 :: y2 :: y3 :: y4 :: c1 :: m1 :: m2 :: c2 :: d1 :: d2 :: c3 :: h :: c4 ::
      n1 :: n2 :: c5 :: s1 :: s2 :: rest =>
      if c1 == '-' && c2 == '-' && c3 == ' ' && c4 == ':' && c5 == ':' &&
         (y1.isDigit && y2.isDigit && y3.isDigit && y4.isDigit && m1.isDigit &&
          m2.isDigit && d1.isDigit && d2.isDigit && h.isDigit && n1.isDigit &&
          n2.isDigit && s1.isDigit && s2.isDigit) then
        [y1, y2, y3, y4, '-', m1, m2, '-', d1, d2, ' ', '0', h, ':', n1, n2, ':', s1, s2]
      else
        y1 :: y2 :: y3 :: y4 :: c1 :: m1 :: m2 :: c2 :: d1 :: d2 :: c3 :: h :: c4 ::
          n1 :: n2 :: c5 :: s1 :: s2 :: rest
  | cs => cs

/-- RfmOffersValidator._normalize_date_format on strings; the empty string
falls through unchanged, as the early return in the source. -/
def normalize_date_format (s : String) : String := String.mk (normList s.data)

/-- One needResources entry of an action, at the keys the price check reads. -/
structure Resource where
  type : Option String
  itemId : Option Int
  count : Option ℚ
deriving DecidableEq, Repr

/-- The price check of RfmOffersValidator.validate_action_rewards_and_resources
(lines 326 to 346): scan needResources for the first entry of type cash, take
float(count default 0) as the actual price, and pass iff such an entry was
found and the absolute difference from the expected price is strictly below
0.001. -/
def price_check_result (need_resources : List Resource) (expected_price : ℚ) : Bool :=
  match need_resources.find? (fun r => r.type == some "cash") with
  | some r => decide (|r.count.getD 0 - expected_price| < 1 / 1000)
  | none => false

end RfmOffers

namespace Quests

/-- One entry of a quest awards.custom list, at the keys the award check reads. -/
structure QAward where
  itemId : Option Int
  count : Option Int
deriving DecidableEq, Repr

/-- The count(17909) award block of QuestsValidator.validate_quest_awards
(lines 496 to 532): when the requirements value is a truthy digit string, scan
the awards for itemId 17909; always log the presence check, and log the count
check only when the entry was found. -/
def award_17909_checks (req_val : String) (awards : List QAward) : List CheckCall :=
  if req_val != "" && pyIsDigit req_val then
    let n : Int := (parsePyInt req_val).getD 0
    match awards.find? (fun a => a.itemId == some 17909) with
    | some aw =>
        [⟨"Наличие награды itemId: 17909 в квесте", true, some (.s "Присутствует"),
          some (.s "Присутствует"),
          some "Награда itemId: 17909 должна присутствовать в квесте",
          some "AWARD_17909_PRESENCE"⟩,
         ⟨"Соответствие количества награды itemId: 17909", some n == aw.count,
          some (.i n), aw.count.map PyExp.i,
          some "Количество награды должно совпадать с указанным в requirements",
          some "AWARD_17909_COUNT"⟩]
    | none =>
        [⟨"Наличие награды itemId: 17909 в квесте", false, some (.s "Присутствует"),
          some (.s "Отсутствует"),
          some "Награда itemId: 17909 должна присутствовать в квесте",
          some "AWARD_17909_PRESENCE"⟩]
  else []

end Quests

namespace ShopOffers

/-- One awards entry of an action, at the keys the shop award check reads. -/
structure SAward where
  type : Option String
  itemId : Option Int
  count : Option Int
deriving DecidableEq, Repr

/-- One Award_ column iteration of ShopOffersValidator.validate_action_rewards
(lines 330 to 369): skip silently unless the value is truthy and the column
starts with Award_; malformed column or non-numeric values log a warning and
skip; otherwise scan the awards for a type item entry with the extracted
itemId and log exactly one combined CheckResult whose outcome is
found and actual_count == expected_count. -/
def award_column_checks (column value : String) (awards : List SAward) :
    List CheckCall × List String :=
  if value == "" || !(strStartsWith column "Award_") then ([], [])
  else
    let parts := (splitOnCharL '(' column.toList).map String.mk
    if parts.length != 2 then
      ([], ["Неправильный формат столбца награды: " ++ column])
    else
      let item_type := String.mk (pyReplaceDel "Award_".toList (parts.headD "").toList)
      let item_id_str := String.mk (((parts.getD 1 "").toList).filter (fun c => c != ')'))
      match parsePyInt item_id_str, parsePyInt value with
      | some item_id, some expected_count =>
          let checkName := "Награда " ++ toString item_id ++ " (" ++ item_type ++ ") в экшене"
          match awards.find? (fun a => a.type == some "item" && a.itemId == some item_id) with
          | some aw =>
              let actual_count : Int := aw.count.getD 0
              ([⟨checkName, actual_count == expected_count, some (.i expected_count),
                 some (.i actual_count), none, some "AWARD_CHECK"⟩], [])
          | none =>
              ([⟨checkName, false, some (.i expected_count), some (.s "Не найдено"),
                 none, some "AWARD_CHECK"⟩], [])
      | _, _ =>
          ([], ["Неправильное значение награды: " ++ value ++ " для " ++ column])

end ShopOffers

theorem segSort_eq_of_perm {l1 l2 : List String} (h : l1.Perm l2) :
    RfmOffers.segSort l1 = RfmOffers.segSort l2 := by
  unfold RfmOffers.segSort
  exact @List.eq_of_perm_of_sorted String (· ≤ ·) inferInstance _ _
    ((List.perm_insertionSort _ l1).trans (h.trans (List.perm_insertionSort _ l2).symm))
    (List.sorted_insertionSort _ l1) (List.sorted_insertionSort _ l2)

/-- C5: the RFM segments comparison is order-insensitive — both sides are split
on the comma, trimmed, sorted and compared as sequences, so whenever the two
token lists agree up to permutation (and the segments condition entry exists)
the check passes; in particular "b,a" against "a, b". -/
theorem rfm_segments_order_insensitive :
    ∀ (s t : String) (settings : List RfmOffers.CondSetting) (c : RfmOffers.CondSetting),
      settings.find? (fun x => x.isNotInOneOfRFM30Segments.isSome) = some c →
      c.isNotInOneOfRFM30Segments = some t →
      List.Perm (RfmOffers.segTokens s) (RfmOffers.segTokens t) →
      RfmOffers.segments_check_result s settings = true := by
  intro s t settings c hfind hval hperm
  simp [RfmOffers.segments_check_result, hfind, hval, segSort_eq_of_perm hperm]

/-- C5 witness: the comparison of "b,a" against "a, b" passes. -/
theorem rfm_segments_order_insensitive_witness :
    RfmOffers.segments_check_result "b,a" [⟨some "a, b"⟩] = true :=
  rfm_segments_order_insensitive "b,a" "a, b" [⟨some "a, b"⟩] ⟨some "a, b"⟩ (by decide)
    rfl (by decide)

theorem digit_ne_colon (c : Char) (h : c.isDigit = true) : (c == ':') = false := by
  cases hc : c == ':' with
  | false => rfl
  | true =>
      exfalso
      have hceq : c = ':' := eq_of_beq hc
      subst hceq
      exact absurd h (by decide)

/-- C6: for every date string of the form YYYY-MM-DD H:MM:SS with a
single-digit hour, normalization zero-pads the hour, so it agrees with the
normalization of the corresponding zero-padded string; and on every
already-zero-padded YYYY-MM-DD HH:MM:SS string normalization is the identity;
in particular on the 2024-01-05 example of the specification. -/
theorem rfm_date_normalization
    (y1 y2 y3 y4 m1 m2 d1 d2 h h1 h2 n1 n2 s1 s2 : Char)
    (hd : ([y1, y2, y3, y4, m1, m2, d1, d2, h, h1, h2, n1, n2, s1, s2].all
        Char.isDigit) = true) :
    RfmOffers.normalize_date_format
        (String.mk [y1, y2, y3, y4, '-', m1, m2, '-', d1, d2, ' ', h, ':', n1, n2, ':', s1, s2])
      = RfmOffers.normalize_date_format
        (String.mk [y1, y2, y3, y4, '-', m1, m2, '-', d1, d2, ' ', '0', h, ':', n1, n2, ':', s1, s2])
    ∧ RfmOffers.normalize_date_format
        (String.mk [y1, y2, y3, y4, '-', m1, m2, '-', d1, d2, ' ', h1, h2, ':', n1, n2, ':', s1, s2])
      = String.mk [y1, y2, y3, y4, '-', m1, m2, '-', d1, d2, ' ', h1, h2, ':', n1, n2, ':', s1, s2]
    ∧ RfmOffers.normalize_date_format "2024-01-05 7:00:00"
      = RfmOffers.normalize_date_format "2024-01-05 07:00:00" := by
  simp only [List.all_cons, List.all_nil, Bool.and_eq_true, Bool.and_true] at hd
  obtain ⟨hy1, hy2, hy3, hy4, hm1, hm2, hd1, hd2, hh, hh1, hh2, hn1, hn2, hs1, hs2⟩ := hd
  refine ⟨?_, ?_, by decide⟩
  · simp [RfmOffers.normalize_date_format, RfmOffers.normList, hy1, hy2, hy3, hy4,
      hm1, hm2, hd1, hd2, hh, hn1, hn2, hs1, hs2, digit_ne_colon h hh]
  · simp [RfmOffers.normalize_date_format, RfmOffers.normList, digit_ne_colon h2 hh2]

/-- C6 witness: the normalization theorem at the concrete characters of
2024-01-05, in single-digit-hour and zero-padded forms. -/
theorem rfm_date_normalization_witness :
    (['2', '0', '2', '4', '0', '1', '0', '5', '7', '0', '7', '0', '0', '0', '0'].all
        Char.isDigit) = true
    ∧ RfmOffers.normalize_date_format
        (String.mk ['2', '0', '2', '4', '-', '0', '1', '-', '0', '5', ' ', '7', ':',
          '0', '0', ':', '0', '0'])
      = RfmOffers.normalize_date_format
        (String.mk ['2', '0', '2', '4', '-', '0', '1', '-', '0', '5', ' ', '0', '7', ':',
          '0', '0', ':', '0', '0'])
    ∧ RfmOffers.normalize_date_format
        (String.mk ['2', '0', '2', '4', '-', '0', '1', '-', '0', '5', ' ', '0', '7', ':',
          '0', '0', ':', '0', '0'])
      = String.mk ['2', '0', '2', '4', '-', '0', '1', '-', '0', '5', ' ', '0', '7', ':',
          '0', '0', ':', '0', '0'] := by
  have hth := rfm_date_normalization '2' '0' '2' '4' '0' '1' '0' '5' '7' '0' '7' '0' '0'
    '0' '0' (by decide)
  exact ⟨by decide, hth.1, hth.2.1⟩

/-- C7: the price comparison passes iff the absolute difference between the
actual cash price and the expected price is strictly below 0.001; an actual
10.0005 matches an expected 10.001, an actual 10.01 does not.  (Python floats
are modelled as rationals; at these inputs IEEE double evaluation agrees.) -/
theorem rfm_price_epsilon :
    (∀ (rs : List RfmOffers.Resource) (e : ℚ) (r : RfmOffers.Resource),
        rs.find? (fun x => x.type == some "cash") = some r →
        (RfmOffers.price_check_result rs e = true ↔ |r.count.getD 0 - e| < 1 / 1000))
    ∧ RfmOffers.price_check_result [⟨some "cash", none, some (10.0005 : ℚ)⟩]
        (10.001 : ℚ) = true
    ∧ RfmOffers.price_check_result [⟨some "cash", none, some (10.01 : ℚ)⟩]
        (10.001 : ℚ) = false := by
  have hmain : ∀ (rs : List RfmOffers.Resource) (e : ℚ) (r : RfmOffers.Resource),
      rs.find? (fun x => x.type == some "cash") = some r →
      (RfmOffers.price_check_result rs e = true ↔ |r.count.getD 0 - e| < 1 / 1000) := by
    intro rs e r hfind
    simp [RfmOffers.price_check_result, hfind]
  have hfind1 : ([⟨some "cash", none, some (10.0005 : ℚ)⟩] : List RfmOffers.Resource).find?
      (fun x => x.type == some "cash") = some ⟨some "cash", none, some (10.0005 : ℚ)⟩ := by
    simp [List.find?]
  have hfind2 : ([⟨some "cash", none, some (10.01 : ℚ)⟩] : List RfmOffers.Resource).find?
      (fun x => x.type == some "cash") = some ⟨some "cash", none, some (10.01 : ℚ)⟩ := by
    simp [List.find?]
  refine ⟨hmain, ?_, ?_⟩
  · refine (hmain _ _ _ hfind1).mpr ?_
    simp only [Option.getD_some]
    rw [abs_sub_lt_iff]
    constructor <;> norm_num
  · have hno : ¬ (RfmOffers.price_check_result [⟨some "cash", none, some (10.01 : ℚ)⟩]
        (10.001 : ℚ) = true) := by
      rw [hmain _ _ _ hfind2]
      simp only [Option.getD_some]
      rw [abs_sub_lt_iff]
      intro hcon
      have := hcon.1
      norm_num at this
    exact Bool.eq_false_iff.mpr hno

/-- C7 witness: the iff instantiated at a concrete cash resource list. -/
theorem rfm_price_epsilon_witness :
    ([⟨some "cash", none, some (10.0005 : ℚ)⟩] : List RfmOffers.Resource).find?
        (fun x => x.type == some "cash") = some ⟨some "cash", none, some (10.0005 : ℚ)⟩
    ∧ (RfmOffers.price_check_result [⟨some "cash", none, some (10.0005 : ℚ)⟩]
          (10.001 : ℚ) = true
        ↔ |(⟨some "cash", none, some (10.0005 : ℚ)⟩ : RfmOffers.Resource).count.getD 0
            - (10.001 : ℚ)| < 1 / 1000) := by
  have hfind1 : ([⟨some "cash", none, some (10.0005 : ℚ)⟩] : List RfmOffers.Resource).find?
      (fun x => x.type == some "cash") = some ⟨some "cash", none, some (10.0005 : ℚ)⟩ := by
    simp [List.find?]
  exact ⟨hfind1, rfm_price_epsilon.1 [⟨some "cash", none, some (10.0005 : ℚ)⟩]
    (10.001 : ℚ) ⟨some "cash", none, some (10.0005 : ℚ)⟩ hfind1⟩

theorem pyIsDigit_ne_empty (s : String) (h : pyIsDigit s = true) : (s != "") = true := by
  cases hs : s == "" with
  | false => simp [bne, hs]
  | true =>
      have : s = "" := eq_of_beq hs
      subst this
      exact absurd h (by decide)

/-- C4 counterexample: in shop-offers validate_action_rewards, a nested award
entry that is present yields exactly one combined CheckResult, not the two
separate presence and value CheckResults the claim requires. -/
theorem shop_award_single_combined_check :
    (ShopOffers.award_column_checks "Award_points(17909)" "5"
        [⟨some "item", some 17909, some 5⟩]).1.length = 1
    ∧ ¬ (ShopOffers.award_column_checks "Award_points(17909)" "5"
        [⟨some "item", some 17909, some 5⟩]).1.length = 2 := by
  exact ⟨by decide, by decide⟩

/-- C4 (amended): in quests-weekly, an absent required award entry yields
exactly one failed presence CheckResult and no value CheckResult, and a present
entry yields presence and value as two separate CheckResults; in shop-offers
validate_action_rewards, each award column yields at most one CheckResult — a
single combined presence-and-value check — whether or not the entry is
present. -/
theorem presence_value_sequencing :
    (∀ (req_val : String) (awards : List Quests.QAward),
        pyIsDigit req_val = true →
        awards.find? (fun a => a.itemId == some 17909) = none →
        Quests.award_17909_checks req_val awards
          = [⟨"Наличие награды itemId: 17909 в квесте", false, some (.s "Присутствует"),
              some (.s "Отсутствует"),
              some "Награда itemId: 17909 должна присутствовать в квесте",
              some "AWARD_17909_PRESENCE"⟩])
    ∧ (∀ (req_val : String) (awards : List Quests.QAward) (aw : Quests.QAward),
        pyIsDigit req_val = true →
        awards.find? (fun a => a.itemId == some 17909) = some aw →
        (Quests.award_17909_checks req_val awards).length = 2
        ∧ (Quests.award_17909_checks req_val awards).map (fun c => c.tag)
            = [some "AWARD_17909_PRESENCE", some "AWARD_17909_COUNT"])
    ∧ (∀ (column value : String) (awards : List ShopOffers.SAward),
        (ShopOffers.award_column_checks column value awards).1.length ≤ 1) := by
  refine ⟨?_, ?_, ?_⟩
  · intro req_val awards hdig hfind
    simp [Quests.award_17909_checks, pyIsDigit_ne_empty req_val hdig, hdig, hfind]
  · intro req_val awards aw hdig hfind
    constructor <;>
      simp [Quests.award_17909_checks, pyIsDigit_ne_empty req_val hdig, hdig, hfind]
  · intro column value awards
    unfold ShopOffers.award_column_checks
    dsimp only
    repeat' split
    all_goals simp

/-- C4 witness: the amended statement at a concrete digit requirement, an
empty awards list and a one-element awards list. -/
theorem presence_value_sequencing_witness :
    pyIsDigit "5" = true
    ∧ Quests.award_17909_checks "5" []
        = [⟨"Наличие награды itemId: 17909 в квесте", false, some (.s "Присутствует"),
            some (.s "Отсутствует"),
            some "Награда itemId: 17909 должна присутствовать в квесте",
            some "AWARD_17909_PRESENCE"⟩]
    ∧ (Quests.award_17909_checks "5" [⟨some 17909, some 5⟩]).length = 2 := by
  refine ⟨by decide, presence_value_sequencing.1 "5" [] (by decide) rfl,
    (presence_value_sequencing.2.1 "5" [⟨some 17909, some 5⟩] ⟨some 17909, some 5⟩
      (by decide) (by decide)).1⟩

/-- C10 witness: the guard statements instantiated at the zero-check counter
state. -/
theorem summary_division_guards_witness :
    (∃ q : ℚ, ShopOffers.success_rate Stats.init = .ok q
        ∧ (Stats.init.total_checks = 0 → q = 0))
    ∧ ((Lottery.summary_percents Stats.init false).isOk = false
        ↔ (false = false ∧ Stats.init.total_checks = 0)) :=
  ⟨summary_division_guards.1 Stats.init, summary_division_guards.2.2.2 Stats.init false⟩
